import Mathlib

/-
Verification of the CanChat deployment-validation scripts.

Shallow embedding of the Python sources:
  * `test_deployment_simple.py` — static-content checker (marker scan, insecure
    `http://` warning scan);
  * `deploy_and_test.py` — workflow driver (`run_command`, `test_deployment`,
    `generate_test_report`);
  * `browser_automation.py` — `BrowserAutomation` session object and the
    interactive `test_deployment` coroutine;
  * `test_https_server.py` — certificate reuse and the CLI port parsing.

Strings from the Python sources are represented as `List Char`; external
effects (subprocess outcomes, playwright operations, the filesystem) are
passed in explicitly as environment values, so every exit path of the
original control flow is a case of a total function.
-/

/-! ## Substring machinery (Python `in` and `re.findall`) -/

/-- Models the Python `in` operator on strings: `occurs pat s = true` iff
`pat` is a contiguous substring of `s` (the empty pattern occurs anywhere). -/
def occurs (pat : List Char) : List Char → Bool
  | [] => pat.isEmpty
  | c :: rest => pat.isPrefixOf (c :: rest) || occurs pat rest

/-- The six ASCII characters matched by the regex class `\s`
(the model is restricted to ASCII input). -/
def isPySpace (c : Char) : Bool :=
  c == ' ' || c == '\t' || c == '\n' || c == '\r' || c == '\x0b' || c == '\x0c'

/-- The literal part of the insecure-resource pattern `http://[^"\s]+`. -/
def httpPat : List Char := "http://".toList

/-- A character excluded by the regex class `[^"\s]`. -/
def pyWsOrQuote (c : Char) : Bool := c == '"' || isPySpace c

/-- Scanner for `re.findall` with the pattern `http://[^"\s]+`: at each position,
a match requires the literal `http://` followed by at least one character that
is neither a quote nor whitespace; the greedy run is consumed and scanning
resumes after the match, exactly as the regex engine does.  The fuel argument
only makes the recursion structural; it is always at least the list length. -/
def findHttpAux : Nat → List Char → List (List Char)
  | 0, _ => []
  | _, [] => []
  | fuel + 1, c :: rest =>
    if httpPat.isPrefixOf (c :: rest) then
      let tail := (c :: rest).drop 7
      let run := tail.takeWhile (fun ch => !pyWsOrQuote ch)
      if run.isEmpty then findHttpAux fuel rest
      else (httpPat ++ run) :: findHttpAux fuel (tail.drop run.length)
    else findHttpAux fuel rest

/-- Models `re.findall` with the pattern `http://[^"\s]+` over the content,
from Test 5 of `test_deployment_simple`. -/
def findHttp (s : List Char) : List (List Char) :=
  findHttpAux s.length s

/-! ## Static-content checker (`test_deployment_simple.py`)

Only the content-validation part (Tests 3–8) is embedded: the body has
already been fetched with status 200 and decoded, and the checker is a pure
function of that body. -/

/-- The `required_elements` list of `test_deployment_simple` (Test 3). -/
def required_elements : List (List Char) :=
  [ "<title>WebRTC PeerJS Chat</title>".toList,
    "<h1>WebRTC PeerJS Chat</h1>".toList,
    "id=\"my-id\"".toList,
    "id=\"peer-id-input\"".toList,
    "id=\"connect-btn\"".toList,
    "id=\"chat-log\"".toList,
    "id=\"message-input\"".toList,
    "id=\"send-btn\"".toList,
    "id=\"test-output\"".toList ]

/-- The PeerJS library marker (Test 4). -/
def peerjsMarker : List Char := "peerjs@1.5.0".toList

/-- The legacy-browser-detection marker (Test 6). -/
def detectMarker : List Char := "detectAndBlockLegacyBrowsers".toList

/-- First test-framework marker (Test 7). -/
def describeMarker : List Char := "describe(".toList

/-- Second test-framework marker (Test 7). -/
def testMarker : List Char := "test(".toList

/-- The `webrtc_features` list of `test_deployment_simple` (Test 8). -/
def webrtc_features : List (List Char) :=
  [ "RTCPeerConnection".toList,
    "RTCDataChannel".toList,
    "stun:stun.l.google.com:19302".toList,
    "new Peer(".toList ]

/-- Every marker whose presence the static checker requires for a passing
verdict, in evaluation order. -/
def allMarkers : List (List Char) :=
  required_elements ++
    [peerjsMarker, detectMarker, describeMarker, testMarker] ++ webrtc_features

/-- The distinct failure reports the checker can print before returning
`False`, one per `❌ ... return False` site. -/
inductive FailReason where
  | element (marker : List Char)
  | peerjsMissing
  | browserDetectionMissing
  | testFrameworkMissing
  | webrtcFeature (marker : List Char)
deriving DecidableEq, Repr

/-- Observable outcome of the content-validation part of
`test_deployment_simple`: the boolean return value, the `✅ Found:` reports of
the element loop, the `✅ WebRTC feature found:` reports, the single failure
report (the function returns at the first failing sub-check), and the
`http://` warning matches that were printed. -/
structure StaticResult where
  pass : Bool
  foundElements : List (List Char)
  foundFeatures : List (List Char)
  failReason : Option FailReason
  warnings : List (List Char)
deriving DecidableEq, Repr

/-- Models a `for element in list: if element in content: ... else: ...
return False` loop: returns the elements reported found, and the first
missing element if the loop returned early. -/
def scanLoop (content : List Char) : List (List Char) → List (List Char) × Option (List Char)
  | [] => ([], none)
  | e :: rest =>
    if occurs e content then
      let (found, missing) := scanLoop content rest
      (e :: found, missing)
    else ([], some e)

/-- The content-validation part (Tests 3–8) of `test_deployment_simple`,
faithful to the early returns of the source: the element loop returns `False` at
the first missing element, each later sub-check returns `False` immediately
when its marker is absent, and the `http://` scan (Test 5) only emits
warnings. -/
def contentCheck (content : List Char) : StaticResult :=
  match scanLoop content required_elements with
  | (found1, some e) =>
    { pass := false, foundElements := found1, foundFeatures := [],
      failReason := some (.element e), warnings := [] }
  | (found1, none) =>
    if occurs peerjsMarker content = false then
      { pass := false, foundElements := found1, foundFeatures := [],
        failReason := some .peerjsMissing, warnings := [] }
    else
      let ws := findHttp content
      if occurs detectMarker content = false then
        { pass := false, foundElements := found1, foundFeatures := [],
          failReason := some .browserDetectionMissing, warnings := ws }
      else if (occurs describeMarker content && occurs testMarker content) = false then
        { pass := false, foundElements := found1, foundFeatures := [],
          failReason := some .testFrameworkMissing, warnings := ws }
      else
        match scanLoop content webrtc_features with
        | (found2, some f) =>
          { pass := false, foundElements := found1, foundFeatures := found2,
            failReason := some (.webrtcFeature f), warnings := ws }
        | (found2, none) =>
          { pass := true, foundElements := found1, foundFeatures := found2,
            failReason := none, warnings := ws }

/-! ## Lemmas about the substring scanners -/

theorem findHttpAux_nil_of_not_occurs (fuel : Nat) (s : List Char)
    (h : occurs httpPat s = false) : findHttpAux fuel s = [] := by
  induction fuel generalizing s with
  | zero => cases s <;> rfl
  | succ n ih =>
    cases s with
    | nil => rfl
    | cons c rest =>
      simp only [occurs, Bool.or_eq_false_iff] at h
      simp [findHttpAux, h.1, ih rest h.2]

theorem findHttp_nil_of_not_occurs (s : List Char) (h : occurs httpPat s = false) :
    findHttp s = [] :=
  findHttpAux_nil_of_not_occurs s.length s h

theorem scanLoop_of_all (content : List Char) (es : List (List Char))
    (h : ∀ e ∈ es, occurs e content = true) : scanLoop content es = (es, none) := by
  induction es with
  | nil => rfl
  | cons e rest ih =>
    have he : occurs e content = true := h e (List.mem_cons_self e rest)
    have hrest := ih (fun x hx => h x (List.mem_cons_of_mem e hx))
    simp [scanLoop, he, hrest]

theorem scanLoop_snd_some (content : List Char) (es : List (List Char))
    (e : List Char) (h : (scanLoop content es).2 = some e) :
    e ∈ es ∧ occurs e content = false := by
  induction es with
  | nil => simp [scanLoop] at h
  | cons x rest ih =>
    cases hx : occurs x content with
    | true =>
      simp [scanLoop, hx] at h
      have := ih h
      exact ⟨List.mem_cons_of_mem x this.1, this.2⟩
    | false =>
      simp [scanLoop, hx] at h
      subst h
      exact ⟨List.mem_cons_self x rest, hx⟩

theorem scanLoop_snd_none (content : List Char) (es : List (List Char))
    (h : (scanLoop content es).2 = none) : ∀ e ∈ es, occurs e content = true := by
  induction es with
  | nil => intro e he; simp at he
  | cons x rest ih =>
    cases hx : occurs x content with
    | true =>
      simp [scanLoop, hx] at h
      intro e he
      rcases List.mem_cons.mp he with rfl | hmem
      · exact hx
      · exact ih h e hmem
    | false => simp [scanLoop, hx] at h

/-! Equation lemmas for each early-return branch of `contentCheck`. -/

theorem contentCheck_eq_elem (c : List Char) (f1 : List (List Char)) (e : List Char)
    (h : scanLoop c required_elements = (f1, some e)) :
    contentCheck c =
      { pass := false, foundElements := f1, foundFeatures := [],
        failReason := some (.element e), warnings := [] } := by
  unfold contentCheck; rw [h]

theorem contentCheck_eq_peerjs (c : List Char) (f1 : List (List Char))
    (h : scanLoop c required_elements = (f1, none))
    (hp : occurs peerjsMarker c = false) :
    contentCheck c =
      { pass := false, foundElements := f1, foundFeatures := [],
        failReason := some .peerjsMissing, warnings := [] } := by
  unfold contentCheck; rw [h]; simp [hp]

theorem contentCheck_eq_detect (c : List Char) (f1 : List (List Char))
    (h : scanLoop c required_elements = (f1, none))
    (hp : occurs peerjsMarker c = true)
    (hd : occurs detectMarker c = false) :
    contentCheck c =
      { pass := false, foundElements := f1, foundFeatures := [],
        failReason := some .browserDetectionMissing, warnings := findHttp c } := by
  unfold contentCheck; rw [h]; simp [hp, hd]

theorem contentCheck_eq_framework (c : List Char) (f1 : List (List Char))
    (h : scanLoop c required_elements = (f1, none))
    (hp : occurs peerjsMarker c = true)
    (hd : occurs detectMarker c = true)
    (hf : (occurs describeMarker c && occurs testMarker c) = false) :
    contentCheck c =
      { pass := false, foundElements := f1, foundFeatures := [],
        failReason := some .testFrameworkMissing, warnings := findHttp c } := by
  unfold contentCheck; rw [h]; simp [hp, hd, hf]

theorem contentCheck_eq_webrtc (c : List Char) (f1 f2 : List (List Char)) (g : List Char)
    (h : scanLoop c required_elements = (f1, none))
    (hp : occurs peerjsMarker c = true)
    (hd : occurs detectMarker c = true)
    (hf : (occurs describeMarker c && occurs testMarker c) = true)
    (h2 : scanLoop c webrtc_features = (f2, some g)) :
    contentCheck c =
      { pass := false, foundElements := f1, foundFeatures := f2,
        failReason := some (.webrtcFeature g), warnings := findHttp c } := by
  unfold contentCheck; rw [h]; simp [hp, hd, hf, h2]

theorem contentCheck_eq_pass (c : List Char) (f1 f2 : List (List Char))
    (h : scanLoop c required_elements = (f1, none))
    (hp : occurs peerjsMarker c = true)
    (hd : occurs detectMarker c = true)
    (hf : (occurs describeMarker c && occurs testMarker c) = true)
    (h2 : scanLoop c webrtc_features = (f2, none)) :
    contentCheck c =
      { pass := true, foundElements := f1, foundFeatures := f2,
        failReason := none, warnings := findHttp c } := by
  unfold contentCheck; rw [h]; simp [hp, hd, hf, h2]

/-- A body on which every marker is found takes the all-pass branch. -/
theorem contentCheck_of_all (c : List Char)
    (h : ∀ m ∈ allMarkers, occurs m c = true) :
    contentCheck c =
      { pass := true, foundElements := required_elements,
        foundFeatures := webrtc_features, failReason := none,
        warnings := findHttp c } := by
  have hmem : ∀ m ∈ allMarkers, occurs m c = true := h
  have h1 : scanLoop c required_elements = (required_elements, none) :=
    scanLoop_of_all c required_elements (fun e he =>
      hmem e (by simp [allMarkers, he]))
  have h2 : scanLoop c webrtc_features = (webrtc_features, none) :=
    scanLoop_of_all c webrtc_features (fun e he =>
      hmem e (by simp [allMarkers, he]))
  have hp : occurs peerjsMarker c = true := hmem _ (by simp [allMarkers])
  have hd : occurs detectMarker c = true := hmem _ (by simp [allMarkers])
  have hde : occurs describeMarker c = true := hmem _ (by simp [allMarkers])
  have hte : occurs testMarker c = true := hmem _ (by simp [allMarkers])
  exact contentCheck_eq_pass c _ _ h1 hp hd (by simp [hde, hte]) h2

/-- The verdict of the checker is exactly the conjunction of all marker
sub-checks, and a failure report is produced exactly when the verdict is
fail. -/
theorem contentCheck_spec (c : List Char) :
    (contentCheck c).pass = allMarkers.all (fun m => occurs m c) ∧
    (contentCheck c).failReason.isNone = (contentCheck c).pass := by
  rcases h1 : scanLoop c required_elements with ⟨f1, o1⟩
  cases o1 with
  | some e =>
    have he := scanLoop_snd_some c required_elements e (by rw [h1])
    rw [contentCheck_eq_elem c f1 e h1]
    refine ⟨?_, rfl⟩
    symm
    rw [List.all_eq_false]
    exact ⟨e, by simp [allMarkers, he.1], by simp [he.2]⟩
  | none =>
    have hall1 := scanLoop_snd_none c required_elements (by rw [h1])
    cases hp : occurs peerjsMarker c with
    | false =>
      rw [contentCheck_eq_peerjs c f1 h1 hp]
      refine ⟨?_, rfl⟩
      symm
      rw [List.all_eq_false]
      exact ⟨peerjsMarker, by simp [allMarkers], by simp [hp]⟩
    | true =>
      cases hd : occurs detectMarker c with
      | false =>
        rw [contentCheck_eq_detect c f1 h1 hp hd]
        refine ⟨?_, rfl⟩
        symm
        rw [List.all_eq_false]
        exact ⟨detectMarker, by simp [allMarkers], by simp [hd]⟩
      | true =>
        cases hf : (occurs describeMarker c && occurs testMarker c) with
        | false =>
          rw [contentCheck_eq_framework c f1 h1 hp hd hf]
          refine ⟨?_, rfl⟩
          symm
          rw [List.all_eq_false]
          rcases Bool.and_eq_false_iff.mp hf with hb | hb
          · exact ⟨describeMarker, by simp [allMarkers], by simp [hb]⟩
          · exact ⟨testMarker, by simp [allMarkers], by simp [hb]⟩
        | true =>
          rcases h2 : scanLoop c webrtc_features with ⟨f2, o2⟩
          cases o2 with
          | some g =>
            have hg := scanLoop_snd_some c webrtc_features g (by rw [h2])
            rw [contentCheck_eq_webrtc c f1 f2 g h1 hp hd hf h2]
            refine ⟨?_, rfl⟩
            symm
            rw [List.all_eq_false]
            exact ⟨g, by simp [allMarkers, hg.1], by simp [hg.2]⟩
          | none =>
            have hall2 := scanLoop_snd_none c webrtc_features (by rw [h2])
            rw [contentCheck_eq_pass c f1 f2 h1 hp hd hf h2]
            refine ⟨?_, rfl⟩
            symm
            rw [List.all_eq_true]
            obtain ⟨hde, hte⟩ : occurs describeMarker c = true ∧ occurs testMarker c = true := by
              simpa using hf
            intro m hm
            simp only [allMarkers, List.mem_append, List.mem_cons,
              List.not_mem_nil, or_false] at hm
            rcases hm with (hm | (rfl | rfl | rfl | rfl)) | hm
            · exact hall1 m hm
            · exact hp
            · exact hd
            · exact hde
            · exact hte
            · exact hall2 m hm


/-! ## Report aggregator (`deploy_and_test.py`, `generate_test_report`) -/

/-- One entry of the `results` list built by `test_deployment` in
`deploy_and_test.py`: `{"test": ..., "success": ..., "critical": ...}`. -/
structure CheckResult where
  test : List Char
  success : Bool
  critical : Bool
deriving DecidableEq, Repr

/-- The tallies computed by `generate_test_report` together with its boolean
return value (`True` iff `critical_failures == 0`). -/
structure Report where
  total_tests : Nat
  passed_tests : Nat
  failed_tests : Nat
  critical_failures : Nat
  overall : Bool
deriving DecidableEq, Repr

/-- Models `generate_test_report(results)` of `deploy_and_test.py`: count the
totals and return success exactly when the count of failed-and-critical
results is zero. -/
def generate_test_report (results : List CheckResult) : Report :=
  let total_tests := results.length
  let passed_tests := (results.filter (fun r => r.success)).length
  let failed_tests := total_tests - passed_tests
  let critical_failures := (results.filter (fun r => !r.success && r.critical)).length
  { total_tests := total_tests, passed_tests := passed_tests,
    failed_tests := failed_tests, critical_failures := critical_failures,
    overall := critical_failures == 0 }

/-! ## Workflow driver (`deploy_and_test.py`, `run_command` / `test_deployment`) -/

/-- Outcome of one `subprocess.run(...)` call as seen by `run_command`:
normal completion with an exit status, `subprocess.TimeoutExpired`, or any
other raised exception. -/
inductive CmdOutcome where
  | completed (returncode : Int) (stdout stderr : List Char)
  | timedOut
  | raised (message : List Char)
deriving DecidableEq, Repr

/-- Models `run_command(command, description)`: every low-level failure is
caught inside the function and becomes the return value `False` together with
a log line naming the check; only exit status 0 yields `True`.  The second
component is the log line emitted for the outcome. -/
def run_command (outcome : CmdOutcome) (description : List Char) : Bool × List Char :=
  match outcome with
  | .completed rc _ _ =>
    if rc == 0 then (true, "✅ ".toList ++ (description ++ " - SUCCESS".toList))
    else (false, "❌ ".toList ++ (description ++ " - FAILED".toList))
  | .timedOut => (false, "⏰ ".toList ++ (description ++ " - TIMEOUT".toList))
  | .raised e =>
    (false, "💥 ".toList ++ (description ++ (" - EXCEPTION: ".toList ++ e)))

/-- One entry of the fixed `tests` list in `deploy_and_test.test_deployment`. -/
structure TestSpec where
  command : List Char
  description : List Char
  critical : Bool
deriving DecidableEq, Repr

/-- The fixed `tests` list of `deploy_and_test.test_deployment`. -/
def tests : List TestSpec :=
  [ { command := "python3 test_deployment_simple.py".toList,
      description := "Simple HTTP validation test".toList,
      critical := true },
    { command := "python3 test_deployment_uvx.py".toList,
      description := "Comprehensive uvx/playwright test".toList,
      critical := true },
    { command := ("uvx --from playwright playwright screenshot " ++
        "https://mehrmorgen.github.io/CanChat/chat.html post_deploy_test.png").toList,
      description := "Post-deployment screenshot".toList,
      critical := false } ]

/-- Models the loop of `deploy_and_test.test_deployment`: every test in the
fixed list is run through `run_command` (whose outcome is supplied by the
environment `env`, keyed by the command line) and contributes one result;
a failure only logs and never leaves the loop. -/
def test_deployment_workflow (env : List Char → CmdOutcome) : List CheckResult :=
  tests.map (fun t =>
    { test := t.description,
      success := (run_command (env t.command) t.description).1,
      critical := t.critical })

/-! ## Helper lemmas about `occurs` -/

theorem isPrefixOf_self_append (p r : List Char) : p.isPrefixOf (p ++ r) = true := by
  induction p with
  | nil => simp [List.isPrefixOf]
  | cons c cs ih => simp [List.cons_append, List.isPrefixOf, ih]

theorem occurs_of_isPrefixOf (p s : List Char) (h : p.isPrefixOf s = true) :
    occurs p s = true := by
  cases s with
  | nil =>
    cases p with
    | nil => rfl
    | cons a as => simp [List.isPrefixOf] at h
  | cons c rest => simp [occurs, h]

theorem occurs_self_append (p r : List Char) : occurs p (p ++ r) = true :=
  occurs_of_isPrefixOf p (p ++ r) (isPrefixOf_self_append p r)

theorem occurs_append_right (l p r : List Char) : occurs p (l ++ (p ++ r)) = true := by
  induction l with
  | nil => simpa using occurs_self_append p r
  | cons c cs ih => simp [occurs, ih]

/-! ## Browser automation (`browser_automation.py`)

The `BrowserAutomation` object is a record of which playwright handles have
been assigned (`self.browser`, `self.context`, `self.page` start as `None`),
plus an instrumentation counter for `browser.close()` calls.  Each underlying
playwright operation is supplied by an `AutoEnv`, as `Except` so that any of
them may raise; every method of the class catches these exceptions itself,
exactly as the source does. -/

/-- The mutable attributes of a `BrowserAutomation` instance (`browserSet`
models `self.browser is not None`, and so on), plus the number of times
`self.browser.close()` has been invoked. -/
structure AutoState where
  browserSet : Bool
  contextSet : Bool
  pageSet : Bool
  closeCalls : Nat
deriving DecidableEq, Repr

/-- The state of a freshly constructed `BrowserAutomation()`. -/
def AutoState.mkNew : AutoState :=
  { browserSet := false, contextSet := false, pageSet := false, closeCalls := 0 }

/-- Outcomes of the underlying playwright operations.  `.ok` is a normal
return, `.error` a raised exception. -/
structure AutoEnv where
  startPlaywright : Except (List Char) Unit
  launch : Except (List Char) Unit
  newContext : Except (List Char) Unit
  newPage : Except (List Char) Unit
  goto : List Char → Except (List Char) Unit
  waitSelector : List Char → Except (List Char) Unit
  pageTitle : Except (List Char) (List Char)
  pageUrl : Except (List Char) (List Char)
  clickSel : List Char → Except (List Char) Unit
  fillSel : List Char → List Char → Except (List Char) Unit
  textContent : List Char → Except (List Char) (Option (List Char))
  screenshot : List Char → Except (List Char) Unit
  evaluate : List Char → Except (List Char) (List (List Char))
  closeBrowser : Except (List Char) Unit

/-- Models `BrowserAutomation.create_session`: the four awaited calls may
each raise; the exception is caught and `False` returned, keeping whatever
attributes were already assigned. -/
def create_session (env : AutoEnv) (s : AutoState) : Bool × AutoState :=
  match env.startPlaywright with
  | .error _ => (false, s)
  | .ok _ =>
    match env.launch with
    | .error _ => (false, s)
    | .ok _ =>
      let s1 := { s with browserSet := true }
      match env.newContext with
      | .error _ => (false, s1)
      | .ok _ =>
        let s2 := { s1 with contextSet := true }
        match env.newPage with
        | .error _ => (false, s2)
        | .ok _ => (true, { s2 with pageSet := true })

/-- Models `BrowserAutomation.navigate_to_url`: no active page returns
`False`; a raised `goto` is caught and returns `False`. -/
def navigate_to_url (env : AutoEnv) (url : List Char) (s : AutoState) : Bool × AutoState :=
  if s.pageSet = false then (false, s)
  else
    match env.goto url with
    | .ok _ => (true, s)
    | .error _ => (false, s)

/-- Return value of `take_screenshot`: the saved path, or Python `False`. -/
inductive ScreenshotRet where
  | saved (path : List Char)
  | failed
deriving DecidableEq, Repr

/-- Models `BrowserAutomation.take_screenshot` (the callers always pass an
explicit path, so the timestamp-derived default is not modelled). -/
def take_screenshot (env : AutoEnv) (path : List Char) (s : AutoState) :
    ScreenshotRet × AutoState :=
  if s.pageSet = false then (.failed, s)
  else
    match env.screenshot path with
    | .ok _ => (.saved path, s)
    | .error _ => (.failed, s)

/-- Models `BrowserAutomation.get_page_title` (`None` on no session or on a
caught exception). -/
def get_page_title (env : AutoEnv) (s : AutoState) : Option (List Char) × AutoState :=
  if s.pageSet = false then (none, s)
  else
    match env.pageTitle with
    | .ok t => (some t, s)
    | .error _ => (none, s)

/-- Models `BrowserAutomation.get_page_url`. -/
def get_page_url (env : AutoEnv) (s : AutoState) : Option (List Char) × AutoState :=
  if s.pageSet = false then (none, s)
  else
    match env.pageUrl with
    | .ok u => (some u, s)
    | .error _ => (none, s)

/-- Models `BrowserAutomation.click_element`. -/
def click_element (env : AutoEnv) (sel : List Char) (s : AutoState) : Bool × AutoState :=
  if s.pageSet = false then (false, s)
  else
    match env.clickSel sel with
    | .ok _ => (true, s)
    | .error _ => (false, s)

/-- Models `BrowserAutomation.fill_input`. -/
def fill_input (env : AutoEnv) (sel text : List Char) (s : AutoState) : Bool × AutoState :=
  if s.pageSet = false then (false, s)
  else
    match env.fillSel sel text with
    | .ok _ => (true, s)
    | .error _ => (false, s)

/-- Models `BrowserAutomation.get_text_content` (`text_content` itself may
return `None`, hence the inner `Option`). -/
def get_text_content (env : AutoEnv) (sel : List Char) (s : AutoState) :
    Option (List Char) × AutoState :=
  if s.pageSet = false then (none, s)
  else
    match env.textContent sel with
    | .ok t => (t, s)
    | .error _ => (none, s)

/-- Models `BrowserAutomation.wait_for_selector`. -/
def wait_for_selector (env : AutoEnv) (sel : List Char) (s : AutoState) : Bool × AutoState :=
  if s.pageSet = false then (false, s)
  else
    match env.waitSelector sel with
    | .ok _ => (true, s)
    | .error _ => (false, s)

/-- Models `BrowserAutomation.execute_javascript`. -/
def execute_javascript (env : AutoEnv) (code : List Char) (s : AutoState) :
    Option (List (List Char)) × AutoState :=
  if s.pageSet = false then (none, s)
  else
    match env.evaluate code with
    | .ok v => (some v, s)
    | .error _ => (none, s)

/-- Models `BrowserAutomation.close_session`: `self.browser.close()` is
awaited exactly when `self.browser` is set; a raised `close` is caught and
`False` returned, but the call has still happened. -/
def close_session (env : AutoEnv) (s : AutoState) : Bool × AutoState :=
  if s.browserSet then
    match env.closeBrowser with
    | .ok _ => (true, { s with closeCalls := s.closeCalls + 1 })
    | .error _ => (false, { s with closeCalls := s.closeCalls + 1 })
  else (true, s)

/-- The page title asserted by the interactive checker. -/
def expectedTitle : List Char := "WebRTC PeerJS Chat".toList

/-- The `try:` block of `browser_automation.test_deployment`.  Every method
call catches its own exceptions, so the only statement that can raise here is
the title assertion (the `asyncio.sleep(3)` and the console prints carry no
state).  The result is the exception status of the block and the state it
left behind. -/
def interactiveBody (env : AutoEnv) (s0 : AutoState) :
    Except (List Char) Unit × AutoState :=
  let (_, s1) := create_session env s0
  let (_, s2) := navigate_to_url env "https://mehrmorgen.github.io/CanChat/chat.html".toList s1
  let (_, s3) := wait_for_selector env "#my-id".toList s2
  let (title, s4) := get_page_title env s3
  if title = some expectedTitle then
    let (_, s5) := get_text_content env "#my-id".toList s4
    let (_, s6) := fill_input env "#peer-id-input".toList "test-peer-id".toList s5
    let (_, s7) := fill_input env "#message-input".toList "Hello, World!".toList s6
    let (_, s8) := take_screenshot env "deployment_test.png".toList s7
    let (_, s9) := execute_javascript env "return window.console.errors || [];".toList s8
    (.ok (), s9)
  else (.error "AssertionError".toList, s4)

/-- Models `browser_automation.test_deployment`: run the body; on an
exception take a diagnostic screenshot and re-raise; in all cases the
`finally:` block runs `close_session` exactly once. -/
def test_deployment_interactive (env : AutoEnv) :
    Except (List Char) Unit × AutoState :=
  match interactiveBody env AutoState.mkNew with
  | (.ok _, s) =>
    let (_, s1) := close_session env s
    (.ok (), s1)
  | (.error e, s) =>
    let (_, s1) := take_screenshot env "deployment_error.png".toList s
    let (_, s2) := close_session env s1
    (.error e, s2)

/-! ### State lemmas for the automation methods -/

theorem navigate_to_url_snd (env : AutoEnv) (url : List Char) (s : AutoState) :
    (navigate_to_url env url s).2 = s := by
  unfold navigate_to_url
  split <;> [rfl; (cases env.goto url <;> rfl)]

theorem take_screenshot_snd (env : AutoEnv) (p : List Char) (s : AutoState) :
    (take_screenshot env p s).2 = s := by
  unfold take_screenshot
  split <;> [rfl; (cases env.screenshot p <;> rfl)]

theorem get_page_title_snd (env : AutoEnv) (s : AutoState) :
    (get_page_title env s).2 = s := by
  unfold get_page_title
  split <;> [rfl; (cases env.pageTitle <;> rfl)]

theorem get_text_content_snd (env : AutoEnv) (sel : List Char) (s : AutoState) :
    (get_text_content env sel s).2 = s := by
  unfold get_text_content
  split <;> [rfl; (cases env.textContent sel <;> rfl)]

theorem fill_input_snd (env : AutoEnv) (sel text : List Char) (s : AutoState) :
    (fill_input env sel text s).2 = s := by
  unfold fill_input
  split <;> [rfl; (cases env.fillSel sel text <;> rfl)]

theorem wait_for_selector_snd (env : AutoEnv) (sel : List Char) (s : AutoState) :
    (wait_for_selector env sel s).2 = s := by
  unfold wait_for_selector
  split <;> [rfl; (cases env.waitSelector sel <;> rfl)]

theorem execute_javascript_snd (env : AutoEnv) (code : List Char) (s : AutoState) :
    (execute_javascript env code s).2 = s := by
  unfold execute_javascript
  split <;> [rfl; (cases env.evaluate code <;> rfl)]

theorem create_session_closeCalls (env : AutoEnv) (s : AutoState) :
    (create_session env s).2.closeCalls = s.closeCalls := by
  unfold create_session
  cases env.startPlaywright <;> try rfl
  cases env.launch <;> try rfl
  cases env.newContext <;> try rfl
  cases env.newPage <;> rfl

theorem close_session_closeCalls (env : AutoEnv) (s : AutoState) :
    (close_session env s).2.closeCalls =
      s.closeCalls + (if s.browserSet then 1 else 0) := by
  unfold close_session
  cases hb : s.browserSet <;> simp [hb]
  cases env.closeBrowser <;> rfl

theorem close_session_browserSet (env : AutoEnv) (s : AutoState) :
    (close_session env s).2.browserSet = s.browserSet := by
  unfold close_session
  cases hb : s.browserSet <;> simp [hb]
  cases env.closeBrowser <;> rfl

/-- The `try:` block leaves exactly the state produced by `create_session`:
none of the later interaction methods mutates the object. -/
theorem interactiveBody_snd (env : AutoEnv) (s0 : AutoState) :
    (interactiveBody env s0).2 = (create_session env s0).2 := by
  unfold interactiveBody
  split <;>
    simp_all [navigate_to_url_snd, wait_for_selector_snd, get_page_title_snd,
      get_text_content_snd, fill_input_snd, take_screenshot_snd,
      execute_javascript_snd] <;>
    split <;> rfl

/-! ## HTTPS test server (`test_https_server.py`) -/

/-- The fixed certificate filename of `create_self_signed_cert`. -/
def cert_file : List Char := "localhost.crt".toList

/-- The fixed key filename of `create_self_signed_cert`. -/
def key_file : List Char := "localhost.key".toList

/-- A filesystem as an association list from filename to contents; lookups
take the first binding. -/
abbrev FileSys : Type := List (List Char × List Char)

/-- Models `os.path.exists`. -/
def fileExists (fs : FileSys) (name : List Char) : Bool :=
  fs.any (fun f => f.1 == name)

/-- Outcome of the `subprocess.run(["openssl", ...])` call: success (with the
bytes openssl writes to the two files), a `CalledProcessError` (non-zero
exit under `check=True`), or `FileNotFoundError` (no openssl binary). -/
inductive OpensslOutcome where
  | succeeds (certBytes keyBytes : List Char)
  | processError
  | notFound
deriving DecidableEq, Repr

/-- Result of `create_self_signed_cert`: either the returned filename pair or
a `sys.exit` code, together with the resulting filesystem and whether the
external openssl tool was invoked. -/
inductive CertRun where
  | returned (cert key : List Char) (fs : FileSys) (invoked : Bool)
  | exited (code : Nat) (fs : FileSys) (invoked : Bool)
deriving DecidableEq, Repr

/-- Models `create_self_signed_cert()` of `test_https_server.py`: if both
fixed files exist they are reused untouched and openssl is not run;
otherwise openssl is invoked and either writes the pair or the script exits
with status 1. -/
def create_self_signed_cert (env : OpensslOutcome) (fs : FileSys) : CertRun :=
  if fileExists fs cert_file && fileExists fs key_file then
    .returned cert_file key_file fs false
  else
    match env with
    | .succeeds certBytes keyBytes =>
      .returned cert_file key_file ((cert_file, certBytes) :: (key_file, keyBytes) :: fs) true
    | .processError => .exited 1 fs true
    | .notFound => .exited 1 fs true

/-! ## Script entry points (`__main__` blocks) -/

/-- What the `__main__` block of a script decides to do from its positional
arguments (everything after the script name in `sys.argv`). -/
inductive MainAction where
  | showHelp
  | runBrowserTest
  | startServer (port : Int)
  | runSimpleWorkflow
deriving DecidableEq, Repr

/-- Models the `__main__` block of `browser_automation.py`: run the test when the first
positional argument is exactly `test`, otherwise (no argument or any other
argument) print the usage help and do nothing. -/
def browser_automation_main (args : List (List Char)) : MainAction :=
  match args with
  | a :: _ => if a = "test".toList then .runBrowserTest else .showHelp
  | [] => .showHelp

/-- Models the base-10 string acceptance of the Python builtin `int(...)`
(restricted to ASCII): optional surrounding whitespace, an optional sign, and
a non-empty digit sequence in which single underscores may separate digits.
`none` models a raised `ValueError`. -/
def isPyDigit (c : Char) : Bool := '0' ≤ c && c ≤ '9'

/-- Numeric value of an ASCII digit. -/
def digitVal (c : Char) : Nat := c.toNat - '0'.toNat

/-- Digit-sequence tail: digits, optionally separated by single
underscores. -/
def parseDigitsAux : Nat → List Char → Option Nat
  | acc, [] => some acc
  | acc, '_' :: rest =>
    match rest with
    | c :: rest2 => if isPyDigit c then parseDigitsAux (acc * 10 + digitVal c) rest2 else none
    | [] => none
  | acc, c :: rest => if isPyDigit c then parseDigitsAux (acc * 10 + digitVal c) rest else none

/-- A non-empty underscore-separated digit sequence. -/
def parseDigits : List Char → Option Nat
  | c :: rest => if isPyDigit c then parseDigitsAux (digitVal c) rest else none
  | [] => none

/-- Strip the whitespace `int` ignores at both ends. -/
def pyStrip (s : List Char) : List Char :=
  ((s.dropWhile isPySpace).reverse.dropWhile isPySpace).reverse

/-- Full parse: `pyInt s = some n` iff Python `int(s)` returns `n`; `none`
models the `ValueError` branch. -/
def pyInt (s : List Char) : Option Int :=
  match pyStrip s with
  | '+' :: rest => (parseDigits rest).map (fun n => (n : Int))
  | '-' :: rest => (parseDigits rest).map (fun n => -(n : Int))
  | t => (parseDigits t).map (fun n => (n : Int))

/-- Models the `__main__` block of `test_https_server.py`: with an argument, parse it
with `int`, falling back to 8443 on `ValueError`; without one, use 8443; then
start the server on that port.  Usage help is never printed. -/
def test_https_server_main (args : List (List Char)) : MainAction :=
  match args with
  | a :: _ =>
    match pyInt a with
    | some n => .startServer n
    | none => .startServer 8443
  | [] => .startServer 8443

/-- Models the `__main__` block of `test_deployment_simple.py`: the validation workflow
runs unconditionally; the arguments are never inspected. -/
def test_deployment_simple_main (_args : List (List Char)) : MainAction :=
  .runSimpleWorkflow

/-! ## Concrete fixture bodies used by witnesses and counterexamples -/

/-- A fixture body containing all sixteen required markers and no
`http://` substring. -/
def masterBody : List Char :=
  ("<title>WebRTC PeerJS Chat</title> <h1>WebRTC PeerJS Chat</h1> " ++
   "id=\"my-id\" id=\"peer-id-input\" id=\"connect-btn\" id=\"chat-log\" " ++
   "id=\"message-input\" id=\"send-btn\" id=\"test-output\" " ++
   "peerjs@1.5.0 detectAndBlockLegacyBrowsers describe( test( " ++
   "RTCPeerConnection RTCDataChannel stun:stun.l.google.com:19302 new Peer(").toList

/-- A fixture body containing exactly the nine `required_elements` markers
and nothing else the checker looks for. -/
def bodyNineMarkers : List Char :=
  ("<title>WebRTC PeerJS Chat</title> <h1>WebRTC PeerJS Chat</h1> " ++
   "id=\"my-id\" id=\"peer-id-input\" id=\"connect-btn\" id=\"chat-log\" " ++
   "id=\"message-input\" id=\"send-btn\" id=\"test-output\"").toList

/-- An insecure-resource reference appended to a fixture body. -/
def httpTail : List Char := " src=http://insecure.example.com/peer.js".toList

/-! ## Claims -/

/-- C1 (counterexample).  The claim says every required marker is evaluated
and each missing marker is reported individually.  On the empty body every
one of the sixteen markers is missing, yet the checker reports exactly one
failure — the first element of `required_elements` — and evaluates nothing
further: the `for` loop ends in `return False` at its first miss. -/
theorem c1_counterexample :
    (contentCheck []).failReason =
      some (.element "<title>WebRTC PeerJS Chat</title>".toList) ∧
    occurs "<h1>WebRTC PeerJS Chat</h1>".toList [] = false ∧
    (contentCheck []).foundElements = [] ∧
    (contentCheck []).pass = false := by decide

/-- C1 (amended).  The checker stops at the first failing sub-check and
reports only that one missing marker (`failReason` is a single report, absent
exactly when the check passes); its overall result is pass exactly when every
marker of the fixed list is found (logical AND over all marker
sub-checks). -/
theorem c1_marker_conjunction (c : List Char) :
    ((contentCheck c).pass = true ↔ ∀ m ∈ allMarkers, occurs m c = true) ∧
    ((contentCheck c).failReason = none ↔ (contentCheck c).pass = true) := by
  obtain ⟨h1, h2⟩ := contentCheck_spec c
  constructor
  · rw [h1, List.all_eq_true]
  · rw [← Option.isNone_iff_eq_none, h2]

/-- C2.  The overall-success output of the aggregator is true iff no result is
both failed and critical, and appending any number of non-critical results
(failed or not) never changes it. -/
theorem c2_overall_success (results : List CheckResult) :
    ((generate_test_report results).overall = true ↔
      ∀ r ∈ results, r.critical = true → r.success = true) ∧
    (∀ extra : List CheckResult, (∀ r ∈ extra, r.critical = false) →
      (generate_test_report (results ++ extra)).overall =
        (generate_test_report results).overall) := by
  constructor
  · simp only [generate_test_report, beq_iff_eq, List.length_eq_zero,
      List.filter_eq_nil_iff]
    constructor
    · intro h r hr hc
      have := h r hr
      simp [hc] at this
      exact this
    · intro h r hr
      by_cases hs : r.success = true
      · simp [hs]
      · simp only [Bool.not_eq_true] at hs
        have hcf : r.critical = false := by
          by_contra hcrit
          simp only [Bool.not_eq_false] at hcrit
          have hsucc := h r hr hcrit
          rw [hsucc] at hs
          simp at hs
        simp [hcf]
  · intro extra hext
    have hnil : extra.filter (fun r => !r.success && r.critical) = [] := by
      rw [List.filter_eq_nil_iff]
      intro r hr
      simp [hext r hr]
    simp [generate_test_report, List.filter_append, hnil]

/-- C2 witness: a critical pass plus one non-critical failure — the
non-critical failure does not change overall success. -/
theorem c2_witness :
    (generate_test_report
        ([⟨"Simple HTTP validation test".toList, true, true⟩] ++
         [⟨"Post-deployment screenshot".toList, false, false⟩])).overall =
      (generate_test_report
        [⟨"Simple HTTP validation test".toList, true, true⟩]).overall :=
  (c2_overall_success [⟨"Simple HTTP validation test".toList, true, true⟩]).2
    [⟨"Post-deployment screenshot".toList, false, false⟩] (by decide)

/-- C3.  For every environment (every combination of succeeding or raising
playwright operations, including a failing title assertion), the interactive
final state of the checker shows `browser.close()` invoked exactly once when a
browser was acquired, and never when acquisition itself failed: the
`finally:` block is the unique release site on all exit paths. -/
theorem c3_session_released_once (env : AutoEnv) :
    (test_deployment_interactive env).2.closeCalls =
      (if (test_deployment_interactive env).2.browserSet then 1 else 0) := by
  unfold test_deployment_interactive
  rcases hb : interactiveBody env AutoState.mkNew with ⟨r, s⟩
  have hs := interactiveBody_snd env AutoState.mkNew
  rw [hb] at hs
  have hcc : s.closeCalls = 0 := by
    simp only at hs
    rw [hs, create_session_closeCalls]
    rfl
  cases r with
  | ok u =>
    rcases hc : close_session env s with ⟨b, s1⟩
    have h1 := close_session_closeCalls env s
    have h2 := close_session_browserSet env s
    rw [hc] at h1 h2
    simp only at h1 h2
    simp only [hc]
    rw [h1, h2, hcc]
    cases s.browserSet <;> simp
  | error e =>
    rcases hshot : take_screenshot env "deployment_error.png".toList s with ⟨sr, s1⟩
    have hup : s1 = s := by
      have := take_screenshot_snd env "deployment_error.png".toList s
      rw [hshot] at this
      exact this
    rcases hc : close_session env s1 with ⟨b, s2⟩
    have h1 := close_session_closeCalls env s1
    have h2 := close_session_browserSet env s1
    rw [hc] at h1 h2
    simp only at h1 h2
    simp only [hshot, hc]
    rw [h1, h2, hup, hcc]
    cases s.browserSet <;> simp

/-- C4.  The verdict of the static checker is a function of the required markers
alone: two bodies agreeing on every marker get the same verdict, however many
`http://` occurrences either contains — the Test 5 scan reports warnings and
never returns. -/
theorem c4_http_never_changes_verdict (c1 c2 : List Char)
    (h : ∀ m ∈ allMarkers, occurs m c1 = occurs m c2) :
    (contentCheck c1).pass = (contentCheck c2).pass := by
  rw [(contentCheck_spec c1).1, (contentCheck_spec c2).1]
  have aux : ∀ l : List (List Char), (∀ m ∈ l, occurs m c1 = occurs m c2) →
      (l.all fun m => occurs m c1) = (l.all fun m => occurs m c2) := by
    intro l
    induction l with
    | nil => intro _; rfl
    | cons x xs ih =>
      intro hl
      simp only [List.all_cons]
      rw [hl x (List.mem_cons_self x xs),
        ih (fun m hm => hl m (List.mem_cons_of_mem x hm))]
  exact aux allMarkers h

set_option maxRecDepth 100000 in
/-- C4 witness: appending one insecure `http://` reference to a fixture that
contains all markers leaves the verdict unchanged. -/
theorem c4_witness :
    (contentCheck masterBody).pass = (contentCheck (masterBody ++ httpTail)).pass :=
  c4_http_never_changes_verdict masterBody (masterBody ++ httpTail) (by decide)

/-- C5 (counterexample).  A body containing all nine `required_elements`
markers and no `http://` substring does not pass: the checker goes on to
demand the PeerJS version marker (and six more) and returns `False`. -/
theorem c5_counterexample :
    (∀ m ∈ required_elements, occurs m bodyNineMarkers = true) ∧
    occurs httpPat bodyNineMarkers = false ∧
    (contentCheck bodyNineMarkers).pass = false ∧
    (contentCheck bodyNineMarkers).failReason = some FailReason.peerjsMissing := by
  decide

/-- C5 (amended).  A body containing all sixteen markers of the fixed list
(the nine element markers, the PeerJS version string, the browser-detection
token, the two test-framework tokens and the four WebRTC feature tokens) and
no `http://` substring gets pass=true with zero warnings. -/
theorem c5_all_markers_pass (c : List Char)
    (hall : ∀ m ∈ allMarkers, occurs m c = true)
    (hhttp : occurs httpPat c = false) :
    (contentCheck c).pass = true ∧ (contentCheck c).warnings = [] := by
  rw [contentCheck_of_all c hall]
  exact ⟨rfl, findHttp_nil_of_not_occurs c hhttp⟩

set_option maxRecDepth 100000 in
/-- C5 witness: the sixteen-marker fixture body passes with no warnings. -/
theorem c5_witness :
    (contentCheck masterBody).pass = true ∧ (contentCheck masterBody).warnings = [] :=
  c5_all_markers_pass masterBody (by decide) (by decide)

/-- C6 (counterexample).  Invoked with zero positional arguments, the HTTPS
test server script does not print usage help: it starts the server on the
default port 8443; the simple deployment script likewise runs its whole
workflow. -/
theorem c6_counterexample :
    test_https_server_main [] = .startServer 8443 ∧
    test_https_server_main [] ≠ .showHelp ∧
    test_deployment_simple_main [] = .runSimpleWorkflow := by decide

/-- C6 (amended).  Only the browser-automation script has the help
behaviour: zero arguments, or any first argument other than `test`, prints
usage help and performs no action.  The HTTPS server script always starts
the server (port 8443 by default), and the simple deployment script runs its
workflow regardless of arguments. -/
theorem c6_cli_dispatch (a : List Char) (rest : List (List Char))
    (args : List (List Char)) (h : a ≠ "test".toList) :
    browser_automation_main [] = .showHelp ∧
    browser_automation_main (a :: rest) = .showHelp ∧
    test_https_server_main [] = .startServer 8443 ∧
    test_deployment_simple_main args = .runSimpleWorkflow := by
  refine ⟨rfl, ?_, rfl, rfl⟩
  have hred : browser_automation_main (a :: rest) =
      if a = "test".toList then .runBrowserTest else .showHelp := rfl
  rw [hred, if_neg h]

/-- C6 witness at the concrete unrecognized argument `status`. -/
theorem c6_witness :
    browser_automation_main [] = .showHelp ∧
    browser_automation_main ["status".toList] = .showHelp ∧
    test_https_server_main [] = .startServer 8443 ∧
    test_deployment_simple_main [] = .runSimpleWorkflow :=
  c6_cli_dispatch "status".toList [] [] (by decide)

/-- C7.  Whatever each subprocess does, every test of the fixed list
contributes exactly its own result (so no failure aborts the run or affects
another check), and `run_command` converts every low-level failure — nonzero
exit status, timeout, raised exception — into the return value `False` with
a log line that names the check. -/
theorem c7_failures_isolated (env : List Char → CmdOutcome) :
    (test_deployment_workflow env).length = tests.length ∧
    (∀ i : Nat, (test_deployment_workflow env)[i]? =
      (tests[i]?).map (fun t =>
        { test := t.description,
          success := (run_command (env t.command) t.description).1,
          critical := t.critical })) ∧
    (∀ d : List Char, ∀ rc : Int, ∀ out err : List Char,
      (run_command (.completed rc out err) d).1 = (rc == 0)) ∧
    (∀ d : List Char, (run_command .timedOut d).1 = false ∧
      occurs d (run_command .timedOut d).2 = true) ∧
    (∀ d e : List Char, (run_command (.raised e) d).1 = false ∧
      occurs d (run_command (.raised e) d).2 = true) := by
  refine ⟨?_, ?_, ?_, ?_, ?_⟩
  · simp [test_deployment_workflow]
  · intro i
    simp [test_deployment_workflow, List.getElem?_map]
  · intro d rc out err
    cases h : rc == 0 <;> simp [run_command, h]
  · intro d
    exact ⟨rfl, occurs_append_right "⏰ ".toList d " - TIMEOUT".toList⟩
  · intro d e
    exact ⟨rfl, occurs_append_right "💥 ".toList d (" - EXCEPTION: ".toList ++ e)⟩

/-- C8.  When both fixed certificate files already exist, the generation
routine returns their names, leaves the filesystem exactly as it was, and
does not invoke openssl — whatever invoking openssl would have done. -/
theorem c8_cert_reuse (env : OpensslOutcome) (fs : FileSys)
    (hc : fileExists fs cert_file = true) (hk : fileExists fs key_file = true) :
    create_self_signed_cert env fs = .returned cert_file key_file fs false := by
  unfold create_self_signed_cert
  simp [hc, hk]

/-- A two-file filesystem holding an existing certificate pair. -/
def sampleFs : FileSys :=
  [(cert_file, "EXISTING-CERT".toList), (key_file, "EXISTING-KEY".toList)]

/-- C8 witness: with both files present the pair is reused even when openssl
itself would fail. -/
theorem c8_witness :
    create_self_signed_cert .processError sampleFs =
      .returned cert_file key_file sampleFs false :=
  c8_cert_reuse .processError sampleFs (by decide) (by decide)

/-- C9.  With no active page, every interaction method of the session object
returns its failure value (`False` or `None`) with the object untouched —
no exception escapes, whatever the underlying engine would do. -/
theorem c9_no_session_safe (env : AutoEnv) (s : AutoState)
    (url sel text path code : List Char) (h : s.pageSet = false) :
    navigate_to_url env url s = (false, s) ∧
    click_element env sel s = (false, s) ∧
    fill_input env sel text s = (false, s) ∧
    get_text_content env sel s = (none, s) ∧
    wait_for_selector env sel s = (false, s) ∧
    take_screenshot env path s = (.failed, s) ∧
    execute_javascript env code s = (none, s) ∧
    get_page_title env s = (none, s) ∧
    get_page_url env s = (none, s) := by
  refine ⟨?_, ?_, ?_, ?_, ?_, ?_, ?_, ?_, ?_⟩ <;>
    simp [navigate_to_url, click_element, fill_input, get_text_content,
      wait_for_selector, take_screenshot, execute_javascript, get_page_title,
      get_page_url, h]

/-- An environment in which every playwright operation succeeds. -/
def sampleEnv : AutoEnv :=
  { startPlaywright := .ok (), launch := .ok (), newContext := .ok (),
    newPage := .ok (), goto := fun _ => .ok (),
    waitSelector := fun _ => .ok (), pageTitle := .ok expectedTitle,
    pageUrl := .ok "about:blank".toList, clickSel := fun _ => .ok (),
    fillSel := fun _ _ => .ok (), textContent := fun _ => .ok none,
    screenshot := fun _ => .ok (), evaluate := fun _ => .ok [],
    closeBrowser := .ok () }

/-- C9 witness on a freshly constructed object (no page yet). -/
theorem c9_witness :
    navigate_to_url sampleEnv "x".toList AutoState.mkNew = (false, AutoState.mkNew) ∧
    click_element sampleEnv "#connect-btn".toList AutoState.mkNew = (false, AutoState.mkNew) ∧
    fill_input sampleEnv "#message-input".toList "hi".toList AutoState.mkNew = (false, AutoState.mkNew) ∧
    get_text_content sampleEnv "#my-id".toList AutoState.mkNew = (none, AutoState.mkNew) ∧
    wait_for_selector sampleEnv "#my-id".toList AutoState.mkNew = (false, AutoState.mkNew) ∧
    take_screenshot sampleEnv "shot.png".toList AutoState.mkNew = (.failed, AutoState.mkNew) ∧
    execute_javascript sampleEnv "1+1".toList AutoState.mkNew = (none, AutoState.mkNew) ∧
    get_page_title sampleEnv AutoState.mkNew = (none, AutoState.mkNew) ∧
    get_page_url sampleEnv AutoState.mkNew = (none, AutoState.mkNew) :=
  c9_no_session_safe sampleEnv AutoState.mkNew "x".toList "#connect-btn".toList
    "hi".toList "shot.png".toList "1+1".toList rfl

/-- C10.  Any positional argument `int` refuses parses to `none`; the script
then falls back to port 8443 and still starts the server — the `ValueError`
is caught and never terminates the script. -/
theorem c10_bad_port_fallback (a : List Char) (h : pyInt a = none) :
    test_https_server_main [a] = .startServer 8443 := by
  simp [test_https_server_main, h]

/-- C10 witness at the concrete argument `not-a-port`. -/
theorem c10_witness :
    test_https_server_main ["not-a-port".toList] = .startServer 8443 :=
  c10_bad_port_fallback "not-a-port".toList (by decide)
